import Mathlib

/-!
Verification of the JotForm compliance dashboard's core computation
(`compute_period_targets` and `leaderboard_with_badges` from `main.py`)
against its natural-language specification.

Dates are modelled as proleptic-Gregorian calendar dates together with
their rata-die ordinal (`toOrdinal`, day 1 = 0001-01-01, a Monday), so
`pyWeekday d = (toOrdinal d + 6) % 7` matches Python's `date.weekday()`
(Monday = 0).  DataFrames are modelled as lists of structures; the float
`percent_complete` is modelled in `ℚ` with rounding to one decimal.
Python's `sorted` on strings compares code points, modelled by `pyLe`.
-/

/-- Code-point lexicographic comparison of character lists, as Python
compares strings. -/
def charListLe : List Char → List Char → Bool
  | [], _ => true
  | _ :: _, [] => false
  | a :: as, b :: bs =>
    if a.toNat < b.toNat then true
    else if b.toNat < a.toNat then false
    else charListLe as bs

/-- Python's string ordering (code-point lexicographic). -/
def pyLe (a b : String) : Prop := charListLe a.data b.data = true

instance : DecidableRel pyLe := fun a b =>
  inferInstanceAs (Decidable (charListLe a.data b.data = true))

theorem charListLe_total : ∀ as bs, charListLe as bs = true ∨ charListLe bs as = true
  | [], _ => Or.inl rfl
  | _ :: _, [] => Or.inr rfl
  | a :: as, b :: bs => by
    by_cases h1 : a.toNat < b.toNat
    · left; simp [charListLe, h1]
    · by_cases h2 : b.toNat < a.toNat
      · right; simp [charListLe, h2]
      · rcases charListLe_total as bs with h | h
        · left; simp [charListLe, h1, h2, h]
        · right; simp [charListLe, h1, h2, h]

theorem charListLe_trans :
    ∀ as bs cs, charListLe as bs = true → charListLe bs cs = true →
      charListLe as cs = true
  | [], _, _, _, _ => rfl
  | _ :: _, [], _, h1, _ => by simp [charListLe] at h1
  | _ :: _, _ :: _, [], _, h2 => by simp [charListLe] at h2
  | a :: as, b :: bs, c :: cs, h1, h2 => by
    simp only [charListLe] at h1 h2 ⊢
    rcases Nat.lt_trichotomy b.toNat a.toNat with hba | hba | hba
    · simp [show ¬ a.toNat < b.toNat by omega, hba] at h1
    · rcases Nat.lt_trichotomy c.toNat b.toNat with hcb | hcb | hcb
      · simp [show ¬ b.toNat < c.toNat by omega, hcb] at h2
      · have h1' : charListLe as bs = true := by
          simpa [show ¬ a.toNat < b.toNat by omega,
            show ¬ b.toNat < a.toNat by omega] using h1
        have h2' : charListLe bs cs = true := by
          simpa [show ¬ b.toNat < c.toNat by omega,
            show ¬ c.toNat < b.toNat by omega] using h2
        simp [show ¬ a.toNat < c.toNat by omega, show ¬ c.toNat < a.toNat by omega]
        exact charListLe_trans as bs cs h1' h2'
      · simp [show a.toNat < c.toNat by omega]
    · rcases Nat.lt_trichotomy c.toNat b.toNat with hcb | hcb | hcb
      · simp [show ¬ b.toNat < c.toNat by omega, hcb] at h2
      · simp [show a.toNat < c.toNat by omega]
      · simp [show a.toNat < c.toNat by omega]

theorem charListLe_antisymm :
    ∀ as bs, charListLe as bs = true → charListLe bs as = true → as = bs
  | [], [], _, _ => rfl
  | [], _ :: _, _, h2 => by simp [charListLe] at h2
  | _ :: _, [], h1, _ => by simp [charListLe] at h1
  | a :: as, b :: bs, h1, h2 => by
    simp only [charListLe] at h1 h2
    rcases Nat.lt_trichotomy a.toNat b.toNat with hab | hab | hab
    · simp [show ¬ b.toNat < a.toNat by omega, hab] at h2
    · have h1' : charListLe as bs = true := by
        simpa [show ¬ a.toNat < b.toNat by omega,
          show ¬ b.toNat < a.toNat by omega] using h1
      have h2' : charListLe bs as = true := by
        simpa [show ¬ a.toNat < b.toNat by omega,
          show ¬ b.toNat < a.toNat by omega] using h2
      have hchar : a = b := Char.eq_of_val_eq (UInt32.toNat.inj hab)
      exact hchar ▸ congrArg (List.cons a) (charListLe_antisymm as bs h1' h2')
    · simp [show ¬ a.toNat < b.toNat by omega, hab] at h1

instance : IsTotal String pyLe :=
  ⟨fun a b => charListLe_total a.data b.data⟩

instance : IsTrans String pyLe :=
  ⟨fun a b c => charListLe_trans a.data b.data c.data⟩

instance : IsAntisymm String pyLe :=
  ⟨fun a b h1 h2 => by
    cases a; cases b
    exact congrArg String.mk (charListLe_antisymm _ _ h1 h2)⟩

/-- True for leap years of the proleptic Gregorian calendar. -/
def isLeapYear (y : Nat) : Bool :=
  (y % 4 == 0 && y % 100 != 0) || y % 400 == 0

/-- Days in the months strictly before month `m` of a (non-)leap year. -/
def daysBeforeMonth (m : Nat) (leap : Bool) : Nat :=
  let base :=
    match m with
    | 1 => 0 | 2 => 31 | 3 => 59 | 4 => 90 | 5 => 120 | 6 => 151
    | 7 => 181 | 8 => 212 | 9 => 243 | 10 => 273 | 11 => 304 | 12 => 334
    | _ => 0
  if leap && decide (3 ≤ m) then base + 1 else base

/-- A calendar date as produced by `st.date_input`. -/
structure CalDate where
  year : Nat
  month : Nat
  day : Nat
deriving DecidableEq, Repr

/-- Rata-die day number (0001-01-01 ↦ 1), Python's `date.toordinal`. -/
def toOrdinal (d : CalDate) : Nat :=
  let py := d.year - 1
  365 * py + py / 4 - py / 100 + py / 400 +
    daysBeforeMonth d.month (isLeapYear d.year) + d.day

/-- Python's `date.weekday()`: Monday = 0 … Sunday = 6. -/
def pyWeekday (d : CalDate) : Nat := (toOrdinal d + 6) % 7

/-- The day ordinals of `pd.date_range(s, e, freq='D')` (inclusive ends). -/
def dailyRange (s e : Nat) : List Nat := List.range' s (e + 1 - s)

/-- The day ordinals of `pd.date_range(s, e, freq='W-MON')`: all Mondays
in `[s, e]`. -/
def mondaysBetween (s e : Nat) : List Nat :=
  (List.range' s (e + 1 - s)).filter (fun d => decide ((d + 6) % 7 = 0))

/-- Month index used by `pd.period_range(s, e, freq='M')`. -/
def monthIndex (d : CalDate) : Nat := 12 * d.year + d.month

/-- `len(periods)` as computed per interval in `compute_period_targets`:
daily dates, Monday-anchored weekly dates (with the leading partial-week
insert when `start` is not a Monday), monthly periods, else empty. -/
def periodCount (interval : String) (s e : CalDate) : Nat :=
  if interval = "daily" then (dailyRange (toOrdinal s) (toOrdinal e)).length
  else if interval = "weekly" then
    (mondaysBetween (toOrdinal s) (toOrdinal e)).length +
      (if pyWeekday s ≠ 0 then 1 else 0)
  else if interval = "monthly" then monthIndex e + 1 - monthIndex s
  else 0

/-- A form's compliance requirement (`{"quota": …, "interval": …}`). -/
structure ComplianceReq where
  quota : Nat
  interval : String
deriving DecidableEq, Repr

/-- The static `FORM_COMPLIANCE` table; `none` both for forms mapped to
`None` and for unknown names (`dict.get` default). -/
def FORM_COMPLIANCE : String → Option ComplianceReq := fun f =>
  if f = "AWEstruck Arival/Departure" then none
  else if f = "Daily Huddle" then some ⟨3, "daily"⟩
  else if f = "Valet Driver Assessment" then none
  else if f = "Key Scrub" then some ⟨3, "daily"⟩
  else if f = "Lot Audit" then some ⟨3, "daily"⟩
  else if f = "Overnight Valet" then some ⟨1, "daily"⟩
  else if f = "Parking/Work Area Hazard" then some ⟨1, "weekly"⟩
  else if f = "Site Audit" then some ⟨1, "monthly"⟩
  else none

/-- One row of `df_raw`, as built by `extract_row`: `location` is `none`
when the submission has no answer named `location`. -/
structure RawRow where
  form_id : String
  form_name : String
  submission_id : String
  submitted_at : String
  location : Option String
deriving DecidableEq, Repr

/-- Python's `str.capitalize()`: first character upper-cased, the rest
lower-cased. -/
def pyCapitalize (s : String) : String :=
  match s.data with
  | [] => ""
  | c :: cs => String.mk (c.toUpper :: cs.map Char.toLower)

/-- Python's `round(x, 1)` modelled on `ℚ`. -/
def round1 (q : ℚ) : ℚ := ((round (10 * q) : ℤ) : ℚ) / 10

/-- One row of the compliance summary DataFrame. -/
structure ComplianceRow where
  form_name : String
  location : String
  interval : String
  periods_in_range : Nat
  quota_per_period : Nat
  target_total : Nat
  actual_total : Nat
  percent_complete : ℚ
  status : String
deriving DecidableEq, Repr

/-- `len(df_raw[(df_raw['form_name'] == form_name) & (df_raw['location'] == loc)])`:
the number of raw submissions matching a form and location exactly. -/
def actualCount (df_raw : List RawRow) (form_name loc : String) : Nat :=
  (df_raw.filter (fun r => r.form_name = form_name ∧ r.location = some loc)).length

/-- The summary row appended for one `(form, location)` pair: the body of
the inner loop of `compute_period_targets`. -/
def mkComplianceRow (df_raw : List RawRow) (form_name loc interval : String)
    (quota periods : Nat) : ComplianceRow :=
  let actual := actualCount df_raw form_name loc
  let target := periods * quota
  let pc : ℚ := if target = 0 then 0 else 100 * (actual : ℚ) / (target : ℚ)
  { form_name := form_name
    location := loc
    interval := pyCapitalize interval
    periods_in_range := periods
    quota_per_period := quota
    target_total := target
    actual_total := actual
    percent_complete := round1 pc
    status := if target ≤ actual then "Met" else "Missing " ++ toString (target - actual) }

/-- `sorted(df_raw['location'].dropna().unique())`: the distinct non-missing
locations of the raw data in Python's sorted order. -/
def sortedLocations (df_raw : List RawRow) : List String :=
  List.insertionSort pyLe ((df_raw.filterMap (fun r => r.location)).dedup)

/-- `selected_locations if selected_locations else sorted(…)`. -/
def effectiveLocations (df_raw : List RawRow) (selected_locations : List String) :
    List String :=
  if selected_locations.isEmpty then sortedLocations df_raw else selected_locations

/-- `compute_period_targets`: one summary row per selected form with a
rule × effective location, in loop order. -/
def compute_period_targets (df_raw : List RawRow) (start_date end_date : CalDate)
    (selected_forms selected_locations : List String) : List ComplianceRow :=
  let compliance_forms := selected_forms.filter (fun f => (FORM_COMPLIANCE f).isSome)
  let all_locations := effectiveLocations df_raw selected_locations
  compliance_forms.flatMap (fun form_name =>
    match FORM_COMPLIANCE form_name with
    | none => []
    | some req =>
        all_locations.map (fun loc =>
          mkComplianceRow df_raw form_name loc req.interval req.quota
            (periodCount req.interval start_date end_date)))

/-- One row of the leaderboard DataFrame (columns of the non-empty
output of `leaderboard_with_badges`, in order). -/
structure LeaderboardRow where
  location : String
  forms_tracked : Nat
  total_target : Nat
  total_actual : Nat
  overall_percent : ℚ
  Badge : String
  Rank : Nat
deriving DecidableEq, Repr

/-- The per-location aggregate produced by `groupby('location').agg(…)`
before badges and ranks are attached. -/
structure LeaderAgg where
  location : String
  forms_tracked : Nat
  total_target : Nat
  total_actual : Nat
  overall_percent : ℚ
deriving DecidableEq, Repr

/-- The aggregate row of one location group. -/
def aggFor (summary : List ComplianceRow) (loc : String) : LeaderAgg :=
  let grp := summary.filter (fun r => r.location = loc)
  { location := loc
    forms_tracked := grp.length
    total_target := (grp.map (fun r => r.target_total)).sum
    total_actual := (grp.map (fun r => r.actual_total)).sum
    overall_percent := (grp.map (fun r => r.percent_complete)).sum / (grp.length : ℚ) }

/-- `badge_row`: the badge tier by threshold on `overall_percent`
(emoji stripped; the labels are a presentation concern). -/
def badge_row (p : ℚ) : String :=
  if 100 ≤ p then "Gold Star"
  else if 90 ≤ p then "Silver Star"
  else if 75 ≤ p then "Bronze Star"
  else "Needs Improvement"

/-- `leaderboard_with_badges`: group by location (pandas sorts group keys),
aggregate, sort by `overall_percent` descending, attach badge and the
`rank(method='min', ascending=False)` rank. -/
def leaderboard_with_badges (compliance_summary : List ComplianceRow) :
    List LeaderboardRow :=
  if compliance_summary.isEmpty then []
  else
    let locs :=
      List.insertionSort pyLe ((compliance_summary.map (fun r => r.location)).dedup)
    let base := locs.map (aggFor compliance_summary)
    let sortedRows :=
      List.insertionSort (fun a b => b.overall_percent ≤ a.overall_percent) base
    sortedRows.map (fun a =>
      { location := a.location
        forms_tracked := a.forms_tracked
        total_target := a.total_target
        total_actual := a.total_actual
        overall_percent := a.overall_percent
        Badge := badge_row a.overall_percent
        Rank :=
          (sortedRows.filter (fun x => a.overall_percent < x.overall_percent)).length
            + 1 })

/-- The column list of the DataFrame returned by `leaderboard_with_badges`:
the empty branch declares four columns explicitly; the non-empty branch
carries the seven aggregate/badge/rank columns. -/
def leaderboardColumns (compliance_summary : List ComplianceRow) : List String :=
  if compliance_summary.isEmpty then ["location", "overall_percent", "Badge", "Rank"]
  else ["location", "forms_tracked", "total_target", "total_actual",
        "overall_percent", "Badge", "Rank"]

/-! ### Helper lemmas about the embedding -/

theorem pyLe_total (a b : String) : pyLe a b ∨ pyLe b a :=
  charListLe_total a.data b.data

theorem round1_zero : round1 0 = 0 := by
  norm_num [round1]

theorem round1_mono {q q' : ℚ} (h : q ≤ q') : round1 q ≤ round1 q' := by
  unfold round1
  have h10 : (10 : ℚ) * q ≤ 10 * q' := by linarith
  have : round (10 * q) ≤ round (10 * q') := by
    rw [round_eq, round_eq]
    exact Int.floor_le_floor (by linarith)
  have : ((round (10 * q) : ℤ) : ℚ) ≤ ((round (10 * q') : ℤ) : ℚ) := by
    exact_mod_cast this
  linarith

theorem sortedLocations_sorted (df : List RawRow) :
    List.Sorted pyLe (sortedLocations df) :=
  List.sorted_insertionSort pyLe _

theorem sortedLocations_nodup (df : List RawRow) :
    (sortedLocations df).Nodup :=
  ((List.perm_insertionSort pyLe _).nodup_iff).mpr (List.nodup_dedup _)

theorem mem_sortedLocations {df : List RawRow} {a : String} :
    a ∈ sortedLocations df ↔ a ∈ df.filterMap (fun r => r.location) := by
  unfold sortedLocations
  rw [(List.perm_insertionSort pyLe _).mem_iff, List.mem_dedup]

theorem effectiveLocations_nodup (df : List RawRow) {locs : List String}
    (h : locs.Nodup) : (effectiveLocations df locs).Nodup := by
  unfold effectiveLocations
  split
  · exact sortedLocations_nodup df
  · exact h

/-- Every interval stored in the rule table is one of the three known ones. -/
theorem FORM_COMPLIANCE_cases {f : String} {req : ComplianceReq}
    (h : FORM_COMPLIANCE f = some req) :
    req = ⟨3, "daily"⟩ ∨ req = ⟨1, "daily"⟩ ∨ req = ⟨1, "weekly"⟩ ∨
      req = ⟨1, "monthly"⟩ := by
  unfold FORM_COMPLIANCE at h
  split_ifs at h <;> simp_all

theorem pyCapitalize_daily : pyCapitalize "daily" = "Daily" := by decide

theorem pyCapitalize_weekly : pyCapitalize "weekly" = "Weekly" := by decide

theorem pyCapitalize_monthly : pyCapitalize "monthly" = "Monthly" := by decide

theorem mkComplianceRow_def (df : List RawRow) (f l i : String) (q p : Nat) :
    mkComplianceRow df f l i q p =
      { form_name := f
        location := l
        interval := pyCapitalize i
        periods_in_range := p
        quota_per_period := q
        target_total := p * q
        actual_total := actualCount df f l
        percent_complete := round1 (if p * q = 0 then 0
          else 100 * (actualCount df f l : ℚ) / ((p * q : Nat) : ℚ))
        status := if p * q ≤ actualCount df f l then "Met"
          else "Missing " ++ toString (p * q - actualCount df f l) } := rfl

/-- Membership description of the Calculator's output. -/
theorem mem_compute_period_targets {df : List RawRow} {s e : CalDate}
    {forms locs : List String} {r : ComplianceRow} :
    r ∈ compute_period_targets df s e forms locs ↔
      ∃ f ∈ forms, ∃ req, FORM_COMPLIANCE f = some req ∧
        ∃ l ∈ effectiveLocations df locs,
          r = mkComplianceRow df f l req.interval req.quota
                (periodCount req.interval s e) := by
  unfold compute_period_targets
  simp only [List.mem_flatMap, List.mem_filter]
  constructor
  · rintro ⟨f, ⟨hf, _⟩, hr⟩
    rcases hreq : FORM_COMPLIANCE f with _ | req
    · rw [hreq] at hr
      simp at hr
    · rw [hreq] at hr
      simp only [List.mem_map] at hr
      rcases hr with ⟨l, hl, rfl⟩
      exact ⟨f, hf, req, hreq, l, hl, rfl⟩
  · rintro ⟨f, hf, req, hreq, l, hl, rfl⟩
    refine ⟨f, ⟨hf, by simp [hreq]⟩, ?_⟩
    rw [hreq]
    simp only [List.mem_map]
    exact ⟨l, hl, rfl⟩

/-- The aggregate rows of the leaderboard in their final (descending)
order, before badges and ranks are attached. -/
def leaderboardAggs (summary : List ComplianceRow) : List LeaderAgg :=
  List.insertionSort (fun a b => b.overall_percent ≤ a.overall_percent)
    ((List.insertionSort pyLe ((summary.map (fun r => r.location)).dedup)).map
      (aggFor summary))

/-- The final map attaching badge and rank to an aggregate row. -/
def attachBadgeRank (aggs : List LeaderAgg) (a : LeaderAgg) : LeaderboardRow :=
  { location := a.location
    forms_tracked := a.forms_tracked
    total_target := a.total_target
    total_actual := a.total_actual
    overall_percent := a.overall_percent
    Badge := badge_row a.overall_percent
    Rank := (aggs.filter (fun x => a.overall_percent < x.overall_percent)).length + 1 }

theorem leaderboard_with_badges_eq (summary : List ComplianceRow)
    (h : ¬ summary.isEmpty) :
    leaderboard_with_badges summary =
      (leaderboardAggs summary).map (attachBadgeRank (leaderboardAggs summary)) := by
  unfold leaderboard_with_badges leaderboardAggs attachBadgeRank
  simp [h]

theorem mem_leaderboardAggs {summary : List ComplianceRow} {a : LeaderAgg} :
    a ∈ leaderboardAggs summary ↔
      ∃ loc ∈ (summary.map (fun r => r.location)).dedup, a = aggFor summary loc := by
  unfold leaderboardAggs
  rw [(List.perm_insertionSort _ _).mem_iff, List.mem_map]
  constructor
  · rintro ⟨loc, hloc, rfl⟩
    exact ⟨loc, (List.perm_insertionSort pyLe _).mem_iff.mp hloc, rfl⟩
  · rintro ⟨loc, hloc, rfl⟩
    exact ⟨loc, (List.perm_insertionSort pyLe _).mem_iff.mpr hloc, rfl⟩

theorem mem_leaderboard {summary : List ComplianceRow} {r : LeaderboardRow} :
    r ∈ leaderboard_with_badges summary ↔
      ¬ summary.isEmpty ∧ ∃ a ∈ leaderboardAggs summary,
        r = attachBadgeRank (leaderboardAggs summary) a := by
  by_cases h : summary.isEmpty
  · constructor
    · intro hr
      unfold leaderboard_with_badges at hr
      rw [if_pos h] at hr
      simp at hr
    · rintro ⟨h', _⟩
      exact absurd h h'
  · rw [leaderboard_with_badges_eq summary h, List.mem_map]
    constructor
    · rintro ⟨a, ha, rfl⟩
      exact ⟨h, a, ha, rfl⟩
    · rintro ⟨_, a, ha, rfl⟩
      exact ⟨a, ha, rfl⟩

/-! ### Concrete inputs used by witnesses and counterexamples -/

/-- A Ranker input with per-location `overall_percent` values 100, 100, 80. -/
def rankerExample : List ComplianceRow :=
  [ { form_name := "Daily Huddle", location := "Alpha", interval := "Daily",
      periods_in_range := 1, quota_per_period := 1, target_total := 1,
      actual_total := 1, percent_complete := 100, status := "Met" },
    { form_name := "Daily Huddle", location := "Bravo", interval := "Daily",
      periods_in_range := 1, quota_per_period := 1, target_total := 1,
      actual_total := 1, percent_complete := 100, status := "Met" },
    { form_name := "Daily Huddle", location := "Charlie", interval := "Daily",
      periods_in_range := 1, quota_per_period := 5, target_total := 5,
      actual_total := 4, percent_complete := 80, status := "Missing 1" } ]

/-! ### C2 -/

/-- C2: for a Ranker input whose per-location `overall_percent` values are
100.0, 100.0 and 80.0, both locations at 100.0 receive rank 1 and the
location at 80.0 receives rank 3 (not 2). -/
theorem ranker_example_ranks_one_one_three :
    (leaderboard_with_badges rankerExample).map
        (fun r => (r.location, r.overall_percent, r.Rank)) =
      [("Alpha", (100 : ℚ), 1), ("Bravo", (100 : ℚ), 1), ("Charlie", (80 : ℚ), 3)] := by
  with_unfolding_all decide

/-! ### C1 -/

/-- C1 counterexample: on the input with `overall_percent` values
100, 100, 80 the code's rank of the 80-percent location is 3, not the
dense rank (count of distinct strictly higher values) + 1 = 2. -/
theorem dense_rank_refuted :
    ¬ (∀ r ∈ leaderboard_with_badges rankerExample,
        r.Rank =
          (((leaderboard_with_badges rankerExample).map
              (fun x => x.overall_percent)).dedup.countP
            (fun p => decide (r.overall_percent < p))) + 1) := by
  with_unfolding_all decide

/-- C1 (amended): ranking is min (competition) rank on `overall_percent`
descending: locations with equal `overall_percent` share the same rank,
and every row's rank equals (count of rows with strictly higher
`overall_percent`, counted with multiplicity) + 1 — so rank numbers ARE
skipped after ties; the largest percentage still gets rank 1. -/
theorem ranker_rank_is_min_rank (summary : List ComplianceRow) :
    ∀ r ∈ leaderboard_with_badges summary,
      r.Rank = ((leaderboard_with_badges summary).filter
          (fun x => r.overall_percent < x.overall_percent)).length + 1 ∧
      ∀ r' ∈ leaderboard_with_badges summary,
        r.overall_percent = r'.overall_percent → r.Rank = r'.Rank := by
  intro r hr
  rcases mem_leaderboard.mp hr with ⟨hne, a, ha, rfl⟩
  have hfilter : ∀ (b : LeaderAgg),
      (((leaderboardAggs summary).map
          (attachBadgeRank (leaderboardAggs summary))).filter
        (fun x => b.overall_percent < x.overall_percent)).length =
      ((leaderboardAggs summary).filter
        (fun x => b.overall_percent < x.overall_percent)).length := by
    intro b
    rw [← List.countP_eq_length_filter, ← List.countP_eq_length_filter,
      List.countP_map]
    rfl
  constructor
  · rw [leaderboard_with_badges_eq summary hne]
    exact (congrArg (· + 1) (hfilter a)).symm
  · intro r' hr' hpc
    rcases mem_leaderboard.mp hr' with ⟨_, a', ha', rfl⟩
    have hpc' : a.overall_percent = a'.overall_percent := hpc
    show ((leaderboardAggs summary).filter
        (fun x => a.overall_percent < x.overall_percent)).length + 1 =
      ((leaderboardAggs summary).filter
        (fun x => a'.overall_percent < x.overall_percent)).length + 1
    rw [hpc']

/-- Witness for C1 (amended) at the concrete 100/100/80 input. -/
theorem ranker_rank_is_min_rank_witness :
    ({ location := "Alpha", forms_tracked := 1, total_target := 1,
       total_actual := 1, overall_percent := 100, Badge := "Gold Star",
       Rank := 1 } : LeaderboardRow) ∈ leaderboard_with_badges rankerExample ∧
    (({ location := "Alpha", forms_tracked := 1, total_target := 1,
        total_actual := 1, overall_percent := 100, Badge := "Gold Star",
        Rank := 1 } : LeaderboardRow).Rank =
      ((leaderboard_with_badges rankerExample).filter
        (fun x => (100 : ℚ) < x.overall_percent)).length + 1 ∧
     ∀ r' ∈ leaderboard_with_badges rankerExample,
       (100 : ℚ) = r'.overall_percent →
        ({ location := "Alpha", forms_tracked := 1, total_target := 1,
           total_actual := 1, overall_percent := 100, Badge := "Gold Star",
           Rank := 1 } : LeaderboardRow).Rank = r'.Rank) :=
  ⟨by with_unfolding_all decide,
   ranker_rank_is_min_rank rankerExample _ (by with_unfolding_all decide)⟩

/-! ### C4 -/

/-- C4 counterexample: the empty Ranker output declares four columns, a
non-empty output seven, so the column sets differ (the claimed shared
five-field shape holds for neither). -/
theorem leaderboard_columns_differ :
    leaderboard_with_badges [] = [] ∧
    leaderboardColumns [] = ["location", "overall_percent", "Badge", "Rank"] ∧
    leaderboardColumns rankerExample =
      ["location", "forms_tracked", "total_target", "total_actual",
       "overall_percent", "Badge", "Rank"] ∧
    "forms_tracked" ∉ leaderboardColumns [] ∧
    "forms_tracked" ∈ leaderboardColumns rankerExample := by
  with_unfolding_all decide

/-- C4 (amended): empty input yields an empty output, but its declared
column list is the four-field one (`location`, `overall_percent`,
`Badge`, `Rank`), a strict subset of the seven columns every non-empty
output carries — the empty and non-empty column sets are not identical. -/
theorem leaderboard_empty_shape (summary : List ComplianceRow)
    (h : summary ≠ []) :
    leaderboard_with_badges [] = [] ∧
    leaderboardColumns [] = ["location", "overall_percent", "Badge", "Rank"] ∧
    leaderboardColumns summary =
      ["location", "forms_tracked", "total_target", "total_actual",
       "overall_percent", "Badge", "Rank"] ∧
    leaderboardColumns [] ⊆ leaderboardColumns summary ∧
    leaderboardColumns [] ≠ leaderboardColumns summary := by
  have hne : ¬ summary.isEmpty := by
    cases summary
    · exact absurd rfl h
    · simp
  refine ⟨rfl, rfl, ?_, ?_, ?_⟩
  · unfold leaderboardColumns
    simp [hne]
  · unfold leaderboardColumns
    simp only [List.isEmpty_nil, if_true, hne, if_false]
    intro c hc
    fin_cases hc <;> simp
  · unfold leaderboardColumns
    simp [hne]

/-- Witness for C4 (amended) at the concrete 100/100/80 input. -/
theorem leaderboard_empty_shape_witness :
    rankerExample ≠ [] ∧
    (leaderboard_with_badges [] = [] ∧
     leaderboardColumns [] = ["location", "overall_percent", "Badge", "Rank"] ∧
     leaderboardColumns rankerExample =
       ["location", "forms_tracked", "total_target", "total_actual",
        "overall_percent", "Badge", "Rank"] ∧
     leaderboardColumns [] ⊆ leaderboardColumns rankerExample ∧
     leaderboardColumns [] ≠ leaderboardColumns rankerExample) :=
  ⟨by decide, leaderboard_empty_shape rankerExample (by decide)⟩

/-! ### C7 -/

theorem percent_formula_of_mem {df : List RawRow} {s e : CalDate}
    {forms locs : List String} {r : ComplianceRow}
    (hr : r ∈ compute_period_targets df s e forms locs) :
    r.percent_complete =
      if r.target_total = 0 then 0
      else round1 (100 * (r.actual_total : ℚ) / (r.target_total : ℚ)) := by
  rcases mem_compute_period_targets.mp hr with ⟨f, -, req, -, l, -, rfl⟩
  rw [mkComplianceRow_def]
  by_cases h : periodCount req.interval s e * req.quota = 0
  · simp [h, round1_zero]
  · simp [h]

theorem status_formula_of_mem {df : List RawRow} {s e : CalDate}
    {forms locs : List String} {r : ComplianceRow}
    (hr : r ∈ compute_period_targets df s e forms locs) :
    r.status =
      if r.target_total ≤ r.actual_total then "Met"
      else "Missing " ++ toString (r.target_total - r.actual_total) := by
  rcases mem_compute_period_targets.mp hr with ⟨f, -, req, -, l, -, rfl⟩
  rw [mkComplianceRow_def]

theorem actual_formula_of_mem {df : List RawRow} {s e : CalDate}
    {forms locs : List String} {r : ComplianceRow}
    (hr : r ∈ compute_period_targets df s e forms locs) :
    r.actual_total = actualCount df r.form_name r.location := by
  rcases mem_compute_period_targets.mp hr with ⟨f, -, req, -, l, -, rfl⟩
  rw [mkComplianceRow_def]

/-- C7: for every row of the Calculator's output, `percent_complete` is 0
when `target_total` is 0 regardless of `actual_total`, and otherwise
equals `100 × actual_total / target_total` rounded to one decimal. -/
theorem percent_complete_spec (df : List RawRow) (s e : CalDate)
    (forms locs : List String) (r : ComplianceRow)
    (hr : r ∈ compute_period_targets df s e forms locs) :
    (r.target_total = 0 → r.percent_complete = 0) ∧
    (r.target_total ≠ 0 →
      r.percent_complete =
        round1 (100 * (r.actual_total : ℚ) / (r.target_total : ℚ))) := by
  have h := percent_formula_of_mem hr
  constructor
  · intro h0
    rw [h, if_pos h0]
  · intro h0
    rw [h, if_neg h0]

/-- A two-submission raw data set for one form and one location. -/
def rawExample : List RawRow :=
  [ ⟨"242047162465151", "Daily Huddle", "6001", "2024-01-01 09:00:00", some "Alpha"⟩,
    ⟨"242047162465151", "Daily Huddle", "6002", "2024-01-01 10:00:00", some "Alpha"⟩ ]

/-- The single summary row the Calculator produces from `rawExample` on
2024-01-01 (periods 1, quota 3, actual 2, percent 66.7). -/
def rowExample : ComplianceRow :=
  { form_name := "Daily Huddle", location := "Alpha", interval := "Daily",
    periods_in_range := 1, quota_per_period := 3, target_total := 3,
    actual_total := 2, percent_complete := 667 / 10, status := "Missing 1" }

set_option maxRecDepth 4000 in
/-- Witness for C7 at a concrete input with target 3 and actual 2. -/
theorem percent_complete_spec_witness :
    rowExample ∈
      compute_period_targets rawExample ⟨2024, 1, 1⟩ ⟨2024, 1, 1⟩
        ["Daily Huddle"] ["Alpha"] ∧
    ((rowExample.target_total = 0 → rowExample.percent_complete = 0) ∧
     (rowExample.target_total ≠ 0 →
       rowExample.percent_complete =
         round1 (100 * (rowExample.actual_total : ℚ) /
           (rowExample.target_total : ℚ)))) :=
  ⟨by with_unfolding_all decide,
   percent_complete_spec rawExample ⟨2024, 1, 1⟩ ⟨2024, 1, 1⟩
     ["Daily Huddle"] ["Alpha"] rowExample (by with_unfolding_all decide)⟩

/-! ### C3 -/

theorem mondaysBetween_length (s e : Nat) :
    (mondaysBetween s e).length =
      ((Finset.Icc s e).filter (fun d => (d + 6) % 7 = 0)).card := by
  rw [Nat.Icc_eq_range']
  rfl

/-- C3: for every Calculator output row computed under the weekly
interval, `periods_in_range` is the number of Mondays in
`[start, end]` (Monday-anchored period boundaries), plus one extra
leading period exactly when `start` is not itself a Monday. -/
theorem weekly_periods_spec (df : List RawRow) (s e : CalDate)
    (forms locs : List String) (r : ComplianceRow)
    (hr : r ∈ compute_period_targets df s e forms locs)
    (hint : r.interval = "Weekly") :
    r.periods_in_range =
      ((Finset.Icc (toOrdinal s) (toOrdinal e)).filter
        (fun d => (d + 6) % 7 = 0)).card +
      (if pyWeekday s ≠ 0 then 1 else 0) := by
  rcases mem_compute_period_targets.mp hr with ⟨f, -, req, hreq, l, -, rfl⟩
  have hint' : pyCapitalize req.interval = "Weekly" := hint
  show periodCount req.interval s e = _
  rcases FORM_COMPLIANCE_cases hreq with h | h | h | h <;> subst h
  · exact absurd hint' (by decide)
  · exact absurd hint' (by decide)
  · show periodCount "weekly" s e = _
    unfold periodCount
    rw [if_neg (by decide), if_pos rfl, mondaysBetween_length]
  · exact absurd hint' (by decide)

/-- The row the Calculator produces for the weekly-quota form on the
range 2024-01-03 (a Wednesday) … 2024-01-15: three weekly periods. -/
def weeklyRowExample : ComplianceRow :=
  { form_name := "Parking/Work Area Hazard", location := "Depot",
    interval := "Weekly", periods_in_range := 3, quota_per_period := 1,
    target_total := 3, actual_total := 0, percent_complete := 0,
    status := "Missing 3" }

set_option maxRecDepth 8000 in
/-- Witness for C3 at the spec's example: start 2024-01-03 (Wednesday),
end 2024-01-15; two Mondays in range plus the leading partial week give
`periods_in_range = 3`. -/
theorem weekly_periods_spec_witness :
    weeklyRowExample ∈
      compute_period_targets rawExample ⟨2024, 1, 3⟩ ⟨2024, 1, 15⟩
        ["Parking/Work Area Hazard"] ["Depot"] ∧
    weeklyRowExample.interval = "Weekly" ∧
    weeklyRowExample.periods_in_range =
      ((Finset.Icc (toOrdinal ⟨2024, 1, 3⟩) (toOrdinal ⟨2024, 1, 15⟩)).filter
        (fun d => (d + 6) % 7 = 0)).card +
      (if pyWeekday ⟨2024, 1, 3⟩ ≠ 0 then 1 else 0) ∧
    weeklyRowExample.periods_in_range = 3 ∧
    pyWeekday ⟨2024, 1, 3⟩ = 2 :=
  ⟨by with_unfolding_all decide, rfl,
   weekly_periods_spec rawExample ⟨2024, 1, 3⟩ ⟨2024, 1, 15⟩
     ["Parking/Work Area Hazard"] ["Depot"] weeklyRowExample
     (by with_unfolding_all decide) rfl,
   rfl, by decide⟩

/-! ### C6 -/

/-- A Ranker input whose single location has rows with percentages 100
(target 1, actual 1) and 50 (target 2, actual 1): the mean of the two
percentages is 75, while `100 × total_actual / total_target = 200/3`. -/
def meanExample : List ComplianceRow :=
  [ { form_name := "Daily Huddle", location := "Delta", interval := "Daily",
      periods_in_range := 1, quota_per_period := 1, target_total := 1,
      actual_total := 1, percent_complete := 100, status := "Met" },
    { form_name := "Overnight Valet", location := "Delta", interval := "Daily",
      periods_in_range := 2, quota_per_period := 1, target_total := 2,
      actual_total := 1, percent_complete := 50, status := "Missing 1" } ]

/-- C6: each leaderboard row's `overall_percent` is the arithmetic mean
of the `percent_complete` values of its location's summary rows, and on
`meanExample` it differs from `100 × total_actual / total_target`. -/
theorem overall_percent_is_group_mean (summary : List ComplianceRow) :
    (∀ r ∈ leaderboard_with_badges summary,
      r.overall_percent =
        ((summary.filter (fun c => c.location = r.location)).map
            (fun c => c.percent_complete)).sum /
          ((summary.filter (fun c => c.location = r.location)).length : ℚ)) ∧
    ∃ lb ∈ leaderboard_with_badges meanExample,
      lb.overall_percent ≠ 100 * (lb.total_actual : ℚ) / (lb.total_target : ℚ) := by
  constructor
  · intro r hr
    rcases mem_leaderboard.mp hr with ⟨hne, a, ha, rfl⟩
    rcases mem_leaderboardAggs.mp ha with ⟨loc, hloc, rfl⟩
    rfl
  · exact ⟨{ location := "Delta", forms_tracked := 2, total_target := 3,
             total_actual := 2, overall_percent := 75, Badge := "Bronze Star",
             Rank := 1 },
           by with_unfolding_all decide, by with_unfolding_all decide⟩

/-- Witness for C6 at `meanExample`: the Delta row's `overall_percent`
is the mean (100 + 50)/2 = 75 of its two rows' percentages. -/
theorem overall_percent_is_group_mean_witness :
    ({ location := "Delta", forms_tracked := 2, total_target := 3,
       total_actual := 2, overall_percent := 75, Badge := "Bronze Star",
       Rank := 1 } : LeaderboardRow) ∈ leaderboard_with_badges meanExample ∧
    ({ location := "Delta", forms_tracked := 2, total_target := 3,
       total_actual := 2, overall_percent := 75, Badge := "Bronze Star",
       Rank := 1 } : LeaderboardRow).overall_percent =
      ((meanExample.filter (fun c => c.location = "Delta")).map
          (fun c => c.percent_complete)).sum /
        ((meanExample.filter (fun c => c.location = "Delta")).length : ℚ) :=
  ⟨by with_unfolding_all decide,
   (overall_percent_is_group_mean meanExample).1 _ (by with_unfolding_all decide)⟩

/-! ### C8 -/

/-- C8 counterexample: with the explicit unsorted location list
`["Bravo", "Alpha"]` the Calculator emits the locations in the given
order, which is not ascending lexical order. -/
theorem calculator_ordering_refuted :
    (compute_period_targets rawExample ⟨2024, 1, 1⟩ ⟨2024, 1, 1⟩
        ["Daily Huddle"] ["Bravo", "Alpha"]).map (fun r => r.location) =
      ["Bravo", "Alpha"] ∧
    ¬ List.Sorted pyLe
        ((compute_period_targets rawExample ⟨2024, 1, 1⟩ ⟨2024, 1, 1⟩
          ["Daily Huddle"] ["Bravo", "Alpha"]).map (fun r => r.location)) := by
  with_unfolding_all decide

/-- C8 (amended): output rows are grouped by form in the order the forms
were selected (restricted to forms with a rule); within each form the
locations follow the selected-locations list exactly when one is
supplied, and are in ascending lexical order (sorted, without
duplicates) only when the selected list is empty. -/
theorem calculator_ordering (df : List RawRow) (s e : CalDate)
    (forms locs : List String) :
    (compute_period_targets df s e forms locs).map
        (fun r => (r.form_name, r.location)) =
      (forms.filter (fun f => (FORM_COMPLIANCE f).isSome)).flatMap
        (fun f => (effectiveLocations df locs).map (fun l => (f, l))) ∧
    (locs = [] →
      List.Sorted pyLe (effectiveLocations df locs) ∧
        (effectiveLocations df locs).Nodup) ∧
    (locs ≠ [] → effectiveLocations df locs = locs) := by
  refine ⟨?_, ?_, ?_⟩
  · show (((forms.filter (fun f => (FORM_COMPLIANCE f).isSome)).flatMap _).map _) = _
    rw [List.map_flatMap]
    apply List.flatMap_congr
    intro f hf
    rcases List.mem_filter.mp hf with ⟨-, hsome⟩
    rcases hopt : FORM_COMPLIANCE f with _ | req
    · rw [hopt] at hsome
      simp at hsome
    · show ((effectiveLocations df locs).map
          (fun loc => mkComplianceRow df f loc req.interval req.quota
            (periodCount req.interval s e))).map
            (fun r => (r.form_name, r.location)) = _
      rw [List.map_map]
      rfl
  · intro h
    subst h
    constructor
    · exact sortedLocations_sorted df
    · exact sortedLocations_nodup df
  · intro h
    unfold effectiveLocations
    rw [if_neg]
    simpa using h

/-- Witness for C8 (amended) with the explicit unsorted list
`["Bravo", "Alpha"]`. -/
theorem calculator_ordering_witness :
    ((compute_period_targets rawExample ⟨2024, 1, 1⟩ ⟨2024, 1, 1⟩
        ["Daily Huddle"] ["Bravo", "Alpha"]).map
          (fun r => (r.form_name, r.location)) =
      (["Daily Huddle"].filter (fun f => (FORM_COMPLIANCE f).isSome)).flatMap
        (fun f => (effectiveLocations rawExample ["Bravo", "Alpha"]).map
          (fun l => (f, l))) ∧
    ((["Bravo", "Alpha"] : List String) = [] →
      List.Sorted pyLe (effectiveLocations rawExample ["Bravo", "Alpha"]) ∧
        (effectiveLocations rawExample ["Bravo", "Alpha"]).Nodup) ∧
    ((["Bravo", "Alpha"] : List String) ≠ [] →
      effectiveLocations rawExample ["Bravo", "Alpha"] = ["Bravo", "Alpha"])) :=
  calculator_ordering rawExample ⟨2024, 1, 1⟩ ⟨2024, 1, 1⟩ ["Daily Huddle"]
    ["Bravo", "Alpha"]

/-! ### C5 -/

/-- C5 counterexample: (i) with no selected locations, a raw submission
whose location answer is the blank string yields a ComplianceRow with the
blank location — blanks are not excluded (only missing values are);
(ii) a selected location with zero matching submissions gets status
`"Met"`, not `"Missing N"`, when the target is 0 (here start > end). -/
theorem location_invariant_refuted :
    ((compute_period_targets
        [⟨"242047162465151", "Daily Huddle", "7001", "2024-01-01 09:00:00",
          some ""⟩]
        ⟨2024, 1, 1⟩ ⟨2024, 1, 1⟩ ["Daily Huddle"] []).map
          (fun r => r.location) = [""]) ∧
    ((compute_period_targets rawExample ⟨2024, 1, 2⟩ ⟨2024, 1, 1⟩
        ["Daily Huddle"] ["Echo"]).map
          (fun r => (r.actual_total, r.target_total, r.status)) =
      [(0, 0, "Met")]) := by
  with_unfolding_all decide

/-- C5 (amended): every output row's location comes from the explicit
selected-locations list or, when that list is empty, from the non-missing
(but possibly blank) location values observed in the raw data — never
from the rule set; a location with zero matching submissions still yields
a row with `actual_total = 0`, whose status is `"Missing target_total"`
when `target_total` is positive and `"Met"` when `target_total` is 0. -/
theorem location_provenance (df : List RawRow) (s e : CalDate)
    (forms locs : List String) (r : ComplianceRow)
    (hr : r ∈ compute_period_targets df s e forms locs) :
    (locs ≠ [] → r.location ∈ locs) ∧
    (locs = [] → ∃ raw ∈ df, raw.location = some r.location) ∧
    (actualCount df r.form_name r.location = 0 →
      r.actual_total = 0 ∧
      (r.target_total = 0 → r.status = "Met") ∧
      (r.target_total ≠ 0 →
        r.status = "Missing " ++ toString r.target_total)) := by
  rcases mem_compute_period_targets.mp hr with ⟨f, -, req, hreq, l, hl, rfl⟩
  have hloc : (mkComplianceRow df f l req.interval req.quota
      (periodCount req.interval s e)).location = l := rfl
  refine ⟨?_, ?_, ?_⟩
  · intro h
    rw [hloc]
    unfold effectiveLocations at hl
    rw [if_neg (by simpa using h)] at hl
    exact hl
  · intro h
    subst h
    rw [hloc]
    rw [show effectiveLocations df ([] : List String) = sortedLocations df from rfl]
      at hl
    rcases List.mem_filterMap.mp (mem_sortedLocations.mp hl) with ⟨raw, hraw, hval⟩
    exact ⟨raw, hraw, hval⟩
  · intro h0
    have hact : (mkComplianceRow df f l req.interval req.quota
        (periodCount req.interval s e)).actual_total = 0 := by
      rw [mkComplianceRow_def] at h0 ⊢
      exact h0
    refine ⟨hact, ?_, ?_⟩
    · intro ht
      have hs := status_formula_of_mem hr
      rw [hact, ht] at hs
      rw [hs, if_pos (Nat.le_refl 0)]
    · intro ht
      have hs := status_formula_of_mem hr
      rw [hact] at hs
      rw [hs, if_neg (by omega), Nat.sub_zero]

set_option maxRecDepth 4000 in
/-- Witness for C5 (amended): with no selected locations, the row for
`rawExample` draws its location "Alpha" from the raw data. -/
theorem location_provenance_witness :
    rowExample ∈
      compute_period_targets rawExample ⟨2024, 1, 1⟩ ⟨2024, 1, 1⟩
        ["Daily Huddle"] [] ∧
    ((([] : List String) ≠ [] → rowExample.location ∈ ([] : List String)) ∧
     (([] : List String) = [] →
       ∃ raw ∈ rawExample, raw.location = some rowExample.location) ∧
     (actualCount rawExample rowExample.form_name rowExample.location = 0 →
       rowExample.actual_total = 0 ∧
       (rowExample.target_total = 0 → rowExample.status = "Met") ∧
       (rowExample.target_total ≠ 0 →
         rowExample.status = "Missing " ++ toString rowExample.target_total))) :=
  ⟨by with_unfolding_all decide,
   location_provenance rawExample ⟨2024, 1, 1⟩ ⟨2024, 1, 1⟩ ["Daily Huddle"] []
     rowExample (by with_unfolding_all decide)⟩

/-! ### C9 -/

theorem actualCount_eq_of_proj {df1 df2 : List RawRow}
    (h : df1.map (fun r => (r.form_name, r.location)) =
         df2.map (fun r => (r.form_name, r.location))) (f l : String) :
    actualCount df1 f l = actualCount df2 f l := by
  unfold actualCount
  rw [← List.countP_eq_length_filter, ← List.countP_eq_length_filter]
  have hc : ∀ df : List RawRow,
      df.countP (fun r => decide (r.form_name = f ∧ r.location = some l)) =
        (df.map (fun r => (r.form_name, r.location))).countP
          (fun p => decide (p.1 = f ∧ p.2 = some l)) := by
    intro df
    rw [List.countP_map]
    rfl
  rw [hc, hc, h]

theorem filterMapLoc_eq_of_proj {df1 df2 : List RawRow}
    (h : df1.map (fun r => (r.form_name, r.location)) =
         df2.map (fun r => (r.form_name, r.location))) :
    df1.filterMap (fun r => r.location) = df2.filterMap (fun r => r.location) := by
  have hm : ∀ df : List RawRow,
      df.filterMap (fun r => r.location) =
        (df.map (fun r => (r.form_name, r.location))).filterMap
          (fun p => p.2) := by
    intro df
    rw [List.filterMap_map]
    rfl
  rw [hm, hm, h]

/-- C9: the Calculator's output depends only on the `form_name` and
`location` fields of the raw submissions: raw inputs that agree row-for-row
on those two fields produce identical outputs, whatever their
`form_id`, `submission_id` and `submitted_at`. -/
theorem calculator_ignores_ids (df1 df2 : List RawRow) (s e : CalDate)
    (forms locs : List String)
    (h : df1.map (fun r => (r.form_name, r.location)) =
         df2.map (fun r => (r.form_name, r.location))) :
    compute_period_targets df1 s e forms locs =
      compute_period_targets df2 s e forms locs := by
  have heff : effectiveLocations df1 locs = effectiveLocations df2 locs := by
    unfold effectiveLocations sortedLocations
    rw [filterMapLoc_eq_of_proj h]
  show (List.filter _ forms).flatMap _ = (List.filter _ forms).flatMap _
  apply List.flatMap_congr
  intro f hf
  rcases hopt : FORM_COMPLIANCE f with _ | req
  · rfl
  · show (effectiveLocations df1 locs).map
        (fun loc => mkComplianceRow df1 f loc req.interval req.quota
          (periodCount req.interval s e)) =
      (effectiveLocations df2 locs).map
        (fun loc => mkComplianceRow df2 f loc req.interval req.quota
          (periodCount req.interval s e))
    rw [heff]
    apply List.map_congr_left
    intro l hl
    rw [mkComplianceRow_def, mkComplianceRow_def, actualCount_eq_of_proj h f l]

/-- `rawExample` with different submission ids and timestamps. -/
def rawExampleAltIds : List RawRow :=
  [ ⟨"242047162465151", "Daily Huddle", "9901", "2030-05-05 05:05:05", some "Alpha"⟩,
    ⟨"242047162465151", "Daily Huddle", "9902", "2031-06-06 06:06:06", some "Alpha"⟩ ]

/-- Witness for C9: changing only ids and timestamps of `rawExample`
leaves the Calculator's output unchanged. -/
theorem calculator_ignores_ids_witness :
    (rawExample.map (fun r => (r.form_name, r.location)) =
        rawExampleAltIds.map (fun r => (r.form_name, r.location))) ∧
    compute_period_targets rawExample ⟨2024, 1, 1⟩ ⟨2024, 1, 1⟩
        ["Daily Huddle"] ["Alpha"] =
      compute_period_targets rawExampleAltIds ⟨2024, 1, 1⟩ ⟨2024, 1, 1⟩
        ["Daily Huddle"] ["Alpha"] :=
  ⟨by decide,
   calculator_ignores_ids rawExample rawExampleAltIds ⟨2024, 1, 1⟩ ⟨2024, 1, 1⟩
     ["Daily Huddle"] ["Alpha"] (by decide)⟩

/-! ### C10 -/

theorem calculator_keys (df : List RawRow) (s e : CalDate)
    (forms locs : List String) :
    (compute_period_targets df s e forms locs).map
        (fun r => (r.form_name, r.location)) =
      (forms.filter (fun f => (FORM_COMPLIANCE f).isSome)).flatMap
        (fun f => (effectiveLocations df locs).map (fun l => (f, l))) := by
  show (((forms.filter (fun f => (FORM_COMPLIANCE f).isSome)).flatMap _).map _) = _
  rw [List.map_flatMap]
  apply List.flatMap_congr
  intro f hf
  rcases List.mem_filter.mp hf with ⟨-, hsome⟩
  rcases hopt : FORM_COMPLIANCE f with _ | req
  · rw [hopt] at hsome
    simp at hsome
  · show ((effectiveLocations df locs).map
        (fun loc => mkComplianceRow df f loc req.interval req.quota
          (periodCount req.interval s e))).map
          (fun r => (r.form_name, r.location)) = _
    rw [List.map_map]
    rfl

theorem actualCount_append (df : List RawRow) (sub : RawRow) (f l : String) :
    actualCount (df ++ [sub]) f l =
      actualCount df f l +
        (if sub.form_name = f ∧ sub.location = some l then 1 else 0) := by
  unfold actualCount
  rw [List.filter_append, List.length_append]
  congr 1
  by_cases h : sub.form_name = f ∧ sub.location = some l
  · rw [if_pos h]
    simp [h]
  · rw [if_neg h]
    simp [h]

theorem sortedLocations_append (df : List RawRow) (sub : RawRow) (l0 : String)
    (hloc : sub.location = some l0)
    (hmem : l0 ∈ df.filterMap (fun r => r.location)) :
    sortedLocations (df ++ [sub]) = sortedLocations df := by
  apply List.eq_of_perm_of_sorted ?_ (sortedLocations_sorted _)
    (sortedLocations_sorted _)
  apply List.perm_of_nodup_nodup_toFinset_eq (sortedLocations_nodup _)
    (sortedLocations_nodup _)
  ext a
  simp only [List.mem_toFinset, mem_sortedLocations]
  rw [List.filterMap_append]
  constructor
  · intro h
    rcases List.mem_append.mp h with h | h
    · exact h
    · have ha : a = l0 := by
        simpa [List.filterMap_cons, hloc] using h
      exact ha ▸ hmem
  · intro h
    exact List.mem_append.mpr (Or.inl h)

/-- The effect, on one already-present `(form, location)` row, of appending
one more raw submission for exactly that form and location. -/
def bumpRow (sub : RawRow) (l0 : String) (r : ComplianceRow) : ComplianceRow :=
  if r.form_name = sub.form_name ∧ r.location = l0 then
    { r with
      actual_total := r.actual_total + 1
      percent_complete := round1 (if r.target_total = 0 then 0
        else 100 * ((r.actual_total + 1 : Nat) : ℚ) / (r.target_total : ℚ))
      status := if r.target_total ≤ r.actual_total + 1 then "Met"
        else "Missing " ++ toString (r.target_total - (r.actual_total + 1)) }
  else r

theorem mkComplianceRow_append (df : List RawRow) (sub : RawRow) (l0 : String)
    (hloc : sub.location = some l0) (f l i : String) (q p : Nat) :
    mkComplianceRow (df ++ [sub]) f l i q p =
      bumpRow sub l0 (mkComplianceRow df f l i q p) := by
  unfold bumpRow
  by_cases h : f = sub.form_name ∧ l = l0
  · rw [if_pos (show (mkComplianceRow df f l i q p).form_name = sub.form_name ∧
        (mkComplianceRow df f l i q p).location = l0 from ⟨h.1, h.2⟩)]
    rw [mkComplianceRow_def, mkComplianceRow_def]
    have ha : actualCount (df ++ [sub]) f l = actualCount df f l + 1 := by
      rw [actualCount_append, if_pos ⟨h.1.symm, by rw [hloc, h.2]⟩]
    rw [ha]
  · rw [if_neg (show ¬ ((mkComplianceRow df f l i q p).form_name = sub.form_name ∧
        (mkComplianceRow df f l i q p).location = l0) from h)]
    rw [mkComplianceRow_def, mkComplianceRow_def]
    have ha : actualCount (df ++ [sub]) f l = actualCount df f l := by
      rw [actualCount_append, if_neg, Nat.add_zero]
      intro hc
      exact h ⟨hc.1.symm, by
        have := hc.2
        rw [hloc] at this
        exact (Option.some_inj.mp this).symm⟩
    rw [ha]

theorem effectiveLocations_append_eq (df : List RawRow) (locs : List String)
    (sub : RawRow) (l0 : String) (hloc : sub.location = some l0)
    (hmem : locs = [] → l0 ∈ df.filterMap (fun r => r.location)) :
    effectiveLocations (df ++ [sub]) locs = effectiveLocations df locs := by
  rcases locs with _ | ⟨x, xs⟩
  · show sortedLocations (df ++ [sub]) = sortedLocations df
    exact sortedLocations_append df sub l0 hloc (hmem rfl)
  · rfl

theorem compute_append_eq_map_bump (df : List RawRow) (s e : CalDate)
    (forms locs : List String) (sub : RawRow) (l0 : String)
    (hloc : sub.location = some l0)
    (heff : effectiveLocations (df ++ [sub]) locs = effectiveLocations df locs) :
    compute_period_targets (df ++ [sub]) s e forms locs =
      (compute_period_targets df s e forms locs).map (bumpRow sub l0) := by
  show (forms.filter _).flatMap _ = ((forms.filter _).flatMap _).map _
  rw [List.map_flatMap]
  apply List.flatMap_congr
  intro f hf
  rcases hopt : FORM_COMPLIANCE f with _ | req
  · rfl
  · show (effectiveLocations (df ++ [sub]) locs).map
        (fun loc => mkComplianceRow (df ++ [sub]) f loc req.interval req.quota
          (periodCount req.interval s e)) =
      ((effectiveLocations df locs).map
        (fun loc => mkComplianceRow df f loc req.interval req.quota
          (periodCount req.interval s e))).map (bumpRow sub l0)
    rw [heff, List.map_map]
    apply List.map_congr_left
    intro l hl
    exact mkComplianceRow_append df sub l0 hloc f l req.interval req.quota _

/-- C10: appending one raw submission whose `form_name` and `location`
match an existing output row (dates, quotas and selections unchanged,
and the selected lists duplicate-free) leaves the output's length
unchanged, there is exactly one such row, that row's `actual_total`
grows by 1 with `target_total` fixed and `percent_complete` not
decreased, and every other row is unchanged. -/
theorem append_matching_submission (df : List RawRow) (s e : CalDate)
    (forms locs : List String) (sub : RawRow) (l0 : String)
    (out out' : List ComplianceRow)
    (hout : out = compute_period_targets df s e forms locs)
    (hout' : out' = compute_period_targets (df ++ [sub]) s e forms locs)
    (hloc : sub.location = some l0)
    (hforms : forms.Nodup) (hlocs : locs.Nodup)
    (hmatch : ∃ r ∈ out, r.form_name = sub.form_name ∧ r.location = l0) :
    out'.length = out.length ∧
    (∃! i : Fin out.length,
      (out.get i).form_name = sub.form_name ∧ (out.get i).location = l0) ∧
    ∀ (i : Fin out.length) (h2 : i.val < out'.length),
      (((out.get i).form_name = sub.form_name ∧ (out.get i).location = l0) →
        (out'.get ⟨i.val, h2⟩).actual_total = (out.get i).actual_total + 1 ∧
        (out'.get ⟨i.val, h2⟩).target_total = (out.get i).target_total ∧
        (out.get i).percent_complete ≤
          (out'.get ⟨i.val, h2⟩).percent_complete) ∧
      (¬ ((out.get i).form_name = sub.form_name ∧ (out.get i).location = l0) →
        out'.get ⟨i.val, h2⟩ = out.get i) := by
  have hmem_l0 : locs = [] → l0 ∈ df.filterMap (fun r => r.location) := by
    intro h0
    rcases hmatch with ⟨r, hr, hkey⟩
    rw [hout] at hr
    rcases mem_compute_period_targets.mp hr with ⟨f, -, req, -, l, hl, rfl⟩
    have hll : l = l0 := hkey.2
    rw [h0] at hl
    rw [show effectiveLocations df [] = sortedLocations df from rfl] at hl
    exact hll ▸ mem_sortedLocations.mp hl
  have heff := effectiveLocations_append_eq df locs sub l0 hloc hmem_l0
  have hmain : out' = out.map (bumpRow sub l0) := by
    rw [hout, hout']
    exact compute_append_eq_map_bump df s e forms locs sub l0 hloc heff
  have hlen : out'.length = out.length := by
    rw [hmain, List.length_map]
  have hget : ∀ (i : Fin out.length) (h2 : i.val < out'.length),
      out'.get ⟨i.val, h2⟩ = bumpRow sub l0 (out.get i) := by
    intro i h2
    have h3 := List.get_of_eq hmain ⟨i.val, h2⟩
    rw [h3, List.get_map]
  refine ⟨hlen, ?_, ?_⟩
  · have hnodup : (out.map (fun r => (r.form_name, r.location))).Nodup := by
      rw [hout, calculator_keys df s e forms locs]
      show ((forms.filter (fun f => (FORM_COMPLIANCE f).isSome)) ×ˢ
          (effectiveLocations df locs)).Nodup
      exact (hforms.filter _).product (effectiveLocations_nodup df hlocs)
    have key_inj : ∀ a b : Fin out.length,
        ((out.get a).form_name, (out.get a).location) =
          ((out.get b).form_name, (out.get b).location) → a = b := by
      intro a b hab
      have hcast : ∀ c : Fin out.length,
          (c.val < (out.map (fun r => (r.form_name, r.location))).length) := by
        intro c
        rw [List.length_map]
        exact c.isLt
      have hga : (out.map (fun r => (r.form_name, r.location))).get
          ⟨a.val, hcast a⟩ = ((out.get a).form_name, (out.get a).location) := by
        rw [List.get_map]
      have hgb : (out.map (fun r => (r.form_name, r.location))).get
          ⟨b.val, hcast b⟩ = ((out.get b).form_name, (out.get b).location) := by
        rw [List.get_map]
      have heq : (⟨a.val, hcast a⟩ : Fin _) = ⟨b.val, hcast b⟩ :=
        List.nodup_iff_injective_get.mp hnodup (by rw [hga, hgb, hab])
      have hv : a.val = b.val := by simpa [Fin.mk.injEq] using heq
      exact Fin.ext hv
    rcases hmatch with ⟨r, hr, hkey⟩
    rcases List.mem_iff_get.mp hr with ⟨i, hi⟩
    refine ⟨i, ?_, ?_⟩
    · show (out.get i).form_name = sub.form_name ∧ (out.get i).location = l0
      rw [hi]
      exact hkey
    · intro j hj
      have hj' : (out.get j).form_name = sub.form_name ∧
          (out.get j).location = l0 := hj
      apply key_inj
      rw [hj'.1, hj'.2, hi, hkey.1, hkey.2]
  · intro i h2
    constructor
    · intro hcond
      have hb := hget i h2
      have hmemi : out.get i ∈ compute_period_targets df s e forms locs := by
        rw [← hout]
        exact List.get_mem out i.val i.isLt
      refine ⟨?_, ?_, ?_⟩
      · rw [hb]
        unfold bumpRow
        rw [if_pos hcond]
      · rw [hb]
        unfold bumpRow
        rw [if_pos hcond]
      · rw [hb]
        unfold bumpRow
        rw [if_pos hcond]
        show (out.get i).percent_complete ≤
          round1 (if (out.get i).target_total = 0 then 0
            else 100 * (((out.get i).actual_total + 1 : Nat) : ℚ) /
              ((out.get i).target_total : ℚ))
        have hpf := percent_formula_of_mem hmemi
        by_cases ht : (out.get i).target_total = 0
        · rw [hpf, if_pos ht, if_pos ht, round1_zero]
        · rw [hpf, if_neg ht, if_neg ht]
          apply round1_mono
          have htpos : (0 : ℚ) < ((out.get i).target_total : ℚ) := by
            exact_mod_cast Nat.pos_of_ne_zero ht
          rw [div_eq_mul_inv, div_eq_mul_inv]
          apply mul_le_mul_of_nonneg_right _ (inv_nonneg.mpr (le_of_lt htpos))
          push_cast
          linarith
    · intro hcond
      rw [hget i h2]
      unfold bumpRow
      rw [if_neg hcond]

/-- One more submission for `("Daily Huddle", "Alpha")`. -/
def subExampleNew : RawRow :=
  ⟨"242047162465151", "Daily Huddle", "6003", "2024-01-01 11:00:00", some "Alpha"⟩

/-- `rowExample` after one extra matching submission: actual 3 of 3. -/
def rowExampleBumped : ComplianceRow :=
  { form_name := "Daily Huddle", location := "Alpha", interval := "Daily",
    periods_in_range := 1, quota_per_period := 3, target_total := 3,
    actual_total := 3, percent_complete := 100, status := "Met" }

set_option maxRecDepth 8000 in
/-- Witness for C10: appending `subExampleNew` to `rawExample` turns the
single output row's actual count from 2 into 3 and raises its percentage. -/
theorem append_matching_submission_witness :
    ([rowExample] = compute_period_targets rawExample ⟨2024, 1, 1⟩ ⟨2024, 1, 1⟩
        ["Daily Huddle"] ["Alpha"]) ∧
    ([rowExampleBumped] = compute_period_targets (rawExample ++ [subExampleNew])
        ⟨2024, 1, 1⟩ ⟨2024, 1, 1⟩ ["Daily Huddle"] ["Alpha"]) ∧
    subExampleNew.location = some "Alpha" ∧
    (["Daily Huddle"] : List String).Nodup ∧
    (["Alpha"] : List String).Nodup ∧
    (∃ r ∈ [rowExample], r.form_name = subExampleNew.form_name ∧
      r.location = "Alpha") ∧
    ([rowExampleBumped].length = [rowExample].length ∧
     (∃! i : Fin [rowExample].length,
       ([rowExample].get i).form_name = subExampleNew.form_name ∧
       ([rowExample].get i).location = "Alpha") ∧
     ∀ (i : Fin [rowExample].length) (h2 : i.val < [rowExampleBumped].length),
       ((([rowExample].get i).form_name = subExampleNew.form_name ∧
         ([rowExample].get i).location = "Alpha") →
         ([rowExampleBumped].get ⟨i.val, h2⟩).actual_total =
           ([rowExample].get i).actual_total + 1 ∧
         ([rowExampleBumped].get ⟨i.val, h2⟩).target_total =
           ([rowExample].get i).target_total ∧
         ([rowExample].get i).percent_complete ≤
           ([rowExampleBumped].get ⟨i.val, h2⟩).percent_complete) ∧
       (¬ (([rowExample].get i).form_name = subExampleNew.form_name ∧
           ([rowExample].get i).location = "Alpha") →
         [rowExampleBumped].get ⟨i.val, h2⟩ = [rowExample].get i)) :=
  have hA : [rowExample] = compute_period_targets rawExample ⟨2024, 1, 1⟩
      ⟨2024, 1, 1⟩ ["Daily Huddle"] ["Alpha"] := by with_unfolding_all decide
  have hB : [rowExampleBumped] = compute_period_targets
      (rawExample ++ [subExampleNew]) ⟨2024, 1, 1⟩ ⟨2024, 1, 1⟩
      ["Daily Huddle"] ["Alpha"] := by with_unfolding_all decide
  have hex : ∃ r ∈ [rowExample], r.form_name = subExampleNew.form_name ∧
      r.location = "Alpha" := by decide
  ⟨hA, hB, rfl, by decide, by decide, hex,
   append_matching_submission rawExample ⟨2024, 1, 1⟩ ⟨2024, 1, 1⟩
     ["Daily Huddle"] ["Alpha"] subExampleNew "Alpha" [rowExample]
     [rowExampleBumped] hA hB rfl (by decide) (by decide) hex⟩
